import Mathlib

/-!
Verification development for the mondevtopromisc packet pipeline.

The repository ships the header declarations (`src/Includes/*.h`) and the
engine loop (`src/main.cpp`).  The engine loop and the capture constants are
embedded directly from those sources.  The bodies of the `PacketConverter`,
`MonitorDevice` and `WirelessPSPPluginDevice` member functions are not part
of the source tree, so they are modelled from the design specification
(spec.md sections 4.1, 4.2, 4.4, 4.5 and 6); every such definition carries a
doc comment starting with "Modelled from the spec:".

Frames are byte strings, modelled as `List Nat` with each element a byte
value.  Reads beyond the end of a frame yield 0, mirroring unchecked raw
reads in the modelled code.
-/

/-- Byte read with out-of-range default 0 (unchecked raw buffer read). -/
def getByte : List Nat → Nat → Nat
  | [], _ => 0
  | b :: _, 0 => b
  | _ :: t, n + 1 => getByte t n

/-- Interpret a list of bytes as a right-justified integer, first byte least
significant; this is the byte order a little-endian `memcpy` of a `uint64_t`
MAC field produces. -/
def macFromBytes : List Nat → Nat
  | [] => 0
  | b :: t => b + 256 * macFromBytes t

/-- Write the low 48 bits of a MAC integer as six bytes, least significant
byte first (the wire order used throughout the converter model). -/
def macToBytes (aMac : Nat) : List Nat :=
  [aMac % 256, aMac / 256 % 256, aMac / 65536 % 256, aMac / 16777216 % 256,
   aMac / 4294967296 % 256, aMac / 1099511627776 % 256]

/-- Modelled from the spec: default RadioTap rate constant from
NetworkingHeaders.h, which is not under src/.  The exact value is immaterial
to every claim; it only seeds `WiFiBeaconInformation.MaxRate`. -/
def RadioTap_Constants.cRateFlags : Nat := 2

/-- Modelled from the spec: default channel frequency from
NetworkingHeaders.h (not under src/); spec section 3 gives the default
frequency 2412 MHz. -/
def RadioTap_Constants.cChannel : Nat := 2412

/-- Modelled from the spec: the RadioTap prefix length is encoded
little-endian in bytes 2 and 3 of the header (spec section 6). -/
def radioTapLength (aData : List Nat) : Nat :=
  getByte aData 2 + 256 * getByte aData 3

/-- Frame-control type field: bits 2-3 of the first frame-control byte. -/
def frameControlType (aFC : Nat) : Nat := aFC / 4 % 4

/-- Frame-control subtype field: bits 4-7 of the first frame-control byte. -/
def frameControlSubtype (aFC : Nat) : Nat := aFC / 16 % 16

/-- The to-DS bit: bit 0 of the second frame-control byte. -/
def toDSBit (aData : List Nat) : Nat :=
  getByte aData (radioTapLength aData + 1) % 2

/-- The from-DS bit: bit 1 of the second frame-control byte. -/
def fromDSBit (aData : List Nat) : Nat :=
  getByte aData (radioTapLength aData + 1) / 2 % 2

/-- Address field `k` (0-based: addr1, addr2, addr3) of the 802.11 header
that follows the RadioTap prefix. -/
def addrField (aData : List Nat) (k : Nat) : List Nat :=
  (aData.drop (radioTapLength aData + 4 + 6 * k)).take 6

/-- Modelled from the spec: frame classification by the 2-byte frame-control
field (spec section 4.1); type/subtype values from IEEE 802.11. -/
inductive FrameClass
  | Beacon
  | Data
  | DataQoS
  | NullFunc
  | Other
deriving DecidableEq

/-- Modelled from the spec: `classify` inspects the frame-control field
right after the RadioTap prefix (spec section 4.1): management/subtype 8 is
a beacon, data/subtype 0 plain data, data/subtype 8 QoS data, data/subtype 4
null-function; everything else is Other. -/
def classify (aData : List Nat) : FrameClass :=
  let lFC := getByte aData (radioTapLength aData)
  if frameControlType lFC = 0 ∧ frameControlSubtype lFC = 8 then FrameClass.Beacon
  else if frameControlType lFC = 2 ∧ frameControlSubtype lFC = 0 then FrameClass.Data
  else if frameControlType lFC = 2 ∧ frameControlSubtype lFC = 8 then FrameClass.DataQoS
  else if frameControlType lFC = 2 ∧ frameControlSubtype lFC = 4 then FrameClass.NullFunc
  else FrameClass.Other

/-- The LLC/SNAP encapsulation sequence `AA AA 03 00 00 00` (spec section 6). -/
def cLLCSNAP : List Nat := [0xAA, 0xAA, 0x03, 0x00, 0x00, 0x00]

/-- Modelled from the spec: source MAC selection from the to-DS/from-DS
matrix (spec section 4.2.2): src is addr2 except in the from-AP case (0,1)
where it is addr3. -/
def srcAddrOf (aData : List Nat) : List Nat :=
  if toDSBit aData = 0 ∧ fromDSBit aData = 1 then addrField aData 2
  else addrField aData 1

/-- Modelled from the spec: destination MAC selection from the
to-DS/from-DS matrix (spec section 4.2.2): dst is addr1 except in the to-AP
case (1,0) where it is addr3. -/
def dstAddrOf (aData : List Nat) : List Nat :=
  if toDSBit aData = 1 ∧ fromDSBit aData = 0 then addrField aData 2
  else addrField aData 0

/-- End of the 802.11 MAC header: 24 bytes after the RadioTap prefix, plus
2 more for the QoS-control field of a QoS data frame (spec section 4.2.2). -/
def dataHeaderEnd (aData : List Nat) : Nat :=
  radioTapLength aData + 24 + (if classify aData = FrameClass.DataQoS then 2 else 0)

/-- Modelled from the spec: `PacketConverter::ConvertPacketTo8023`
(declared in src/Includes/PacketConverter.h; body not under src/).  Spec
section 4.2.2: skip RadioTap, require a Data or DataQoS frame, reject the
(1,1) DS combination, skip the QoS control field for QoS frames, require
LLC/SNAP, then emit `dst | src | ethertype` followed by the payload. -/
def PacketConverter.ConvertPacketTo8023 (aData : List Nat) : List Nat :=
  if classify aData ≠ FrameClass.Data ∧ classify aData ≠ FrameClass.DataQoS then []
  else if toDSBit aData = 1 ∧ fromDSBit aData = 1 then []
  else if (aData.drop (dataHeaderEnd aData)).take 6 ≠ cLLCSNAP then []
  else
    dstAddrOf aData ++ srcAddrOf aData ++
      (aData.drop (dataHeaderEnd aData + 6)).take 2 ++ aData.drop (dataHeaderEnd aData + 8)

/-- Modelled from the spec: `PacketConverter::InsertRadioTapHeader`
(declared in src/Includes/PacketConverter.h; body not under src/).  Spec
section 6: version 0, pad 0, little-endian length, present bitmap
Flags|Rate|Channel (0x0E), flags 0, the rate byte, little-endian channel
frequency, and channel flags 0x00A0 for OFDM or 0x00A0|0x0020 for CCK at
2472 MHz or below. -/
def PacketConverter.InsertRadioTapHeader (aFrequency : Nat) (aMaxRate : Nat) : List Nat :=
  [0, 0, 14, 0, 0x0E, 0, 0, 0, 0, aMaxRate % 256,
   aFrequency % 256, aFrequency / 256 % 256,
   (if aFrequency ≤ 2472 then Nat.lor 0xA0 0x20 else 0xA0), 0]

/-- Modelled from the spec: `PacketConverter::ConvertPacketTo80211`
(declared in src/Includes/PacketConverter.h; body not under src/).  Spec
section 4.2.3: RadioTap for the given frequency and rate, an IBSS Data
header (frame control 0x08 0x00, duration 0, addr1 = ethernet dst,
addr2 = ethernet src, addr3 = BSSID, sequence control 0), LLC/SNAP, the
original EtherType and the payload.  A frame too short to carry an
Ethernet header yields the empty string. -/
def PacketConverter.ConvertPacketTo80211
    (aData : List Nat) (aBSSID : Nat) (aFrequency : Nat) (aMaxRate : Nat) : List Nat :=
  if aData.length < 14 then []
  else
    PacketConverter.InsertRadioTapHeader aFrequency aMaxRate ++
      [0x08, 0x00, 0x00, 0x00] ++
      aData.take 6 ++ (aData.drop 6).take 6 ++ macToBytes aBSSID ++ [0x00, 0x00] ++
      cLLCSNAP ++ (aData.drop 12).take 2 ++ aData.drop 14

/-- Modelled from the spec: `PacketConverter::IsForBSSID` compares addr3
against the BSSID after skipping RadioTap and frame control (spec
section 4.2.4). -/
def PacketConverter.IsForBSSID (aData : List Nat) (aBSSID : Nat) : Bool :=
  macFromBytes (addrField aData 2) == aBSSID

/-- Dot11 source address of a frame as a MAC integer, following the
to-DS/from-DS matrix. -/
def dot11SourceMAC (aData : List Nat) : Nat :=
  macFromBytes (srcAddrOf aData)

/-- Dot11 BSSID of a frame as a MAC integer (addr3). -/
def dot11BSSID (aData : List Nat) : Nat :=
  macFromBytes (addrField aData 2)

/-- Hex digit value of a character code: handles 0-9, a-f and A-F; any
other character yields an unvalidated junk value, mirroring the documented
absence of input validation ("has no safety built in for invalid
strings"). -/
def hexCharValue (c : Char) : Nat :=
  if 48 ≤ c.toNat ∧ c.toNat ≤ 57 then c.toNat - 48
  else if 97 ≤ c.toNat ∧ c.toNat ≤ 102 then c.toNat - 97 + 10
  else if 65 ≤ c.toNat ∧ c.toNat ≤ 70 then c.toNat - 65 + 10
  else c.toNat % 16

/-- True for an ASCII hexadecimal digit (0-9, a-f, A-F). -/
def isHexDigitChar (c : Char) : Bool :=
  (decide (48 ≤ c.toNat) && decide (c.toNat ≤ 57)) ||
  (decide (97 ≤ c.toNat) && decide (c.toNat ≤ 102)) ||
  (decide (65 ≤ c.toNat) && decide (c.toNat ≤ 70))

/-- Fold of the fast hex parse: colon separators (character code 58) are
skipped, every other character shifts the accumulator by one nibble. -/
def macToIntFold : List Char → Nat → Nat
  | [], acc => acc
  | c :: cs, acc =>
    if c.toNat = 58 then macToIntFold cs acc
    else macToIntFold cs (acc * 16 + hexCharValue c)

/-- Modelled from the spec: `PacketConverter::MacToInt` (declared in
src/Includes/PacketConverter.h; body not under src/).  Spec section 4.2.4:
a fast hex parse of `xx:xx:xx:xx:xx:xx`; invalid characters are not
validated. -/
def PacketConverter.MacToInt (aMac : String) : Nat :=
  macToIntFold aMac.data 0

/-- One stretch of the channel table: `aCount` consecutive channels
starting at `aStart`, channel `c` mapping to `aBase + 5 * c` MHz. -/
def channelTableFrom (aStart : Int) (aCount : Nat) (aBase : Int) : List (Int × Int) :=
  match aCount with
  | 0 => []
  | k + 1 => (aStart, aBase + 5 * aStart) :: channelTableFrom (aStart + 1) k aBase

/-- Modelled from the spec: the table behind `ConvertChannelToFrequency`
(spec section 4.2.1): channels 1-13 at 2407+5n MHz, channel 14 at
2484 MHz, channels 36-165 at 5000+5n MHz. -/
def channelFrequencyTable : List (Int × Int) :=
  channelTableFrom 1 13 2407 ++ [(14, 2484)] ++ channelTableFrom 36 130 5000

/-- Modelled from the spec: `PacketConverter::ConvertChannelToFrequency`
(declared in src/Includes/PacketConverter.h; body not under src/).  Spec
section 4.2.1: table-driven lookup, -1 for a channel outside the table. -/
def PacketConverter.ConvertChannelToFrequency (aChannel : Int) : Int :=
  match channelFrequencyTable.lookup aChannel with
  | some f => f
  | none => -1

/-- Modelled from the spec: walk of the beacon (tag, length, value)
triplets (spec section 4.1), returning the value of the first tag with the
given id. -/
def findTag (aTag : Nat) : List Nat → Option (List Nat)
  | [] => none
  | [_] => none
  | t :: len :: rest =>
    if t = aTag then some (rest.take len)
    else findTag aTag (rest.drop len)
termination_by l => l.length
decreasing_by
  simp only [List.length_cons, List.length_drop]
  omega

/-- Character codes of a string, used to compare SSID bytes against the
textual SSID filter entries. -/
def strBytes (s : String) : List Nat :=
  s.data.map Char.toNat

/-- Byte-list version of a case-sensitive starts-with test. -/
def isPrefixBytes : List Nat → List Nat → Bool
  | [], _ => true
  | _ :: _, [] => false
  | a :: as, b :: bs => a == b && isPrefixBytes as bs

/-- Modelled from the spec: the SSID filter matches any SSID having one of
its entries as a prefix (spec section 3, SSIDFilter invariant). -/
def ssidMatchesFilter (aSSID : List Nat) (aFilter : List String) : Bool :=
  aFilter.any (fun p => isPrefixBytes (strBytes p) aSSID)

/-- Beacon metadata snapshot: mirrors
`IPCapDevice_Constants::WiFiBeaconInformation` of src/Includes/IPCapDevice.h
(BSSID, SSID, MaxRate, Frequency). -/
structure WiFiBeaconInformation where
  BSSID : Nat
  SSID : List Nat
  MaxRate : Nat
  Frequency : Nat
deriving DecidableEq

/-- Modelled from the spec: `PacketConverter::FillWiFiInformation`
(declared in src/Includes/PacketConverter.h; body not under src/).  Spec
sections 4.1 and 4.2.1: the BSSID is addr3 of the management header, the
SSID is tag 0 and the supported rates tag 1 of the tagged parameters that
start 12 bytes after the 24-byte management header; max rate is the largest
rate with the basic-rate bit stripped; the channel (DS parameter set,
tag 3) is converted to a frequency.  Defaults fall back to the
RadioTap constants. -/
def PacketConverter.FillWiFiInformation (aData : List Nat) : WiFiBeaconInformation :=
  let lTags := aData.drop (radioTapLength aData + 36)
  let lSSID := (findTag 0 lTags).getD []
  let lRates := (findTag 1 lTags).getD []
  let lMaxRate := lRates.foldl (fun acc r => max acc (r % 128)) 0
  let lFrequency :=
    match findTag 3 lTags with
    | some (ch :: _) => (PacketConverter.ConvertChannelToFrequency (Int.ofNat ch)).toNat
    | _ => RadioTap_Constants.cChannel
  { BSSID := macFromBytes (addrField aData 2),
    SSID := lSSID,
    MaxRate := if lMaxRate = 0 then RadioTap_Constants.cRateFlags else lMaxRate,
    Frequency := lFrequency }

/-- Device lifecycle states (spec section 3, DeviceState). -/
inductive DevState
  | Closed
  | Opened
  | Capturing
  | Stopping
deriving DecidableEq

/-- State of a `MonitorDevice` (fields from src/Includes/MonitorDevice.h:
mSSIDFilter, mSourceMACToFilter, mAcknowledgePackets, mWifiInformation,
plus the spec's DeviceState and bssid_locked sub-state). -/
structure MonitorDeviceState where
  devState : DevState
  bssidLocked : Bool
  mWifiInformation : WiFiBeaconInformation
  mSSIDFilter : List String
  mSourceMACToFilter : Nat
  mAcknowledgePackets : Bool

/-- Outcome of one `MonitorDevice::ReadCallback` invocation: the updated
device state, the bytes handed to the Connector (none when nothing is
forwarded), and the bytes injected back on-air (the forged ACK). -/
structure MonitorReadResult where
  st : MonitorDeviceState
  sentToConnector : Option (List Nat)
  injected : Option (List Nat)

/-- Modelled from the spec: the synthesized acknowledgement (spec
section 4.4): frame control ACK (type 1, subtype 13), duration 0,
addr1 = original source, wrapped in a fresh RadioTap built from the locked
beacon information. -/
def buildAck (s : MonitorDeviceState) (aData : List Nat) : List Nat :=
  PacketConverter.InsertRadioTapHeader s.mWifiInformation.Frequency s.mWifiInformation.MaxRate ++
    [0xD4, 0x00, 0x00, 0x00] ++ srcAddrOf aData

/-- Modelled from the spec: the locked-state data handling of
`MonitorDevice::ReadCallback` (spec section 4.4): Data/DataQoS frames
matching the locked BSSID are converted by `ConvertPacketTo8023` and handed
to the Connector; if a non-zero source MAC filter is set, frames from any
other source are dropped after conversion; forwarding optionally triggers
an acknowledgement. -/
def MonitorDevice.handleLockedData (s : MonitorDeviceState) (aData : List Nat) : MonitorReadResult :=
  if PacketConverter.IsForBSSID aData s.mWifiInformation.BSSID then
    if s.mSourceMACToFilter ≠ 0 ∧ dot11SourceMAC aData ≠ s.mSourceMACToFilter then
      ⟨s, none, none⟩
    else
      ⟨s, some (PacketConverter.ConvertPacketTo8023 aData),
        if s.mAcknowledgePackets then some (buildAck s aData) else none⟩
  else ⟨s, none, none⟩

/-- Modelled from the spec: `MonitorDevice::ReadCallback` (declared in
src/Includes/MonitorDevice.h line 50; body not under src/).  Spec
section 4.4: while capturing and unlocked, only beacons are inspected — a
beacon whose SSID matches the filter locks the device; every frame is
dropped without contacting the Connector.  While locked, beacons with the
same BSSID refresh the beacon information, matching Data/DataQoS frames are
converted and forwarded, null-function frames optionally trigger an
acknowledgement, everything else is dropped. -/
def MonitorDevice.ReadCallback (s : MonitorDeviceState) (aData : List Nat) : MonitorReadResult :=
  if s.devState ≠ DevState.Capturing then ⟨s, none, none⟩
  else if s.bssidLocked then
    match classify aData with
    | FrameClass.Beacon =>
      let lInfo := PacketConverter.FillWiFiInformation aData
      if lInfo.BSSID = s.mWifiInformation.BSSID then
        ⟨{ s with mWifiInformation := lInfo }, none, none⟩
      else ⟨s, none, none⟩
    | FrameClass.Data => MonitorDevice.handleLockedData s aData
    | FrameClass.DataQoS => MonitorDevice.handleLockedData s aData
    | FrameClass.NullFunc =>
      ⟨s, none, if s.mAcknowledgePackets then some (buildAck s aData) else none⟩
    | FrameClass.Other => ⟨s, none, none⟩
  else
    match classify aData with
    | FrameClass.Beacon =>
      let lInfo := PacketConverter.FillWiFiInformation aData
      if ssidMatchesFilter lInfo.SSID s.mSSIDFilter then
        ⟨{ s with bssidLocked := true, mWifiInformation := lInfo }, none, none⟩
      else ⟨s, none, none⟩
    | _ => ⟨s, none, none⟩

/-- State of a `WirelessPSPPluginDevice` (fields from
src/Includes/WirelessPSPPluginDevice.h; the spec's lock is the BSSID taken
from the first matching data frame). -/
structure PSPDeviceState where
  devState : DevState
  bssidLocked : Bool
  lockedBSSID : Nat
  mSourceMACToFilter : Nat

/-- Outcome of one `WirelessPSPPluginDevice::ReadCallback` invocation. -/
structure PSPReadResult where
  st : PSPDeviceState
  sentToConnector : Option (List Nat)

/-- `WirelessPSPPluginDevice::GetLockedBSSID` (declared in
src/Includes/WirelessPSPPluginDevice.h lines 37-41): exposes the locked
BSSID for diagnostics. -/
def WirelessPSPPluginDevice.GetLockedBSSID (s : PSPDeviceState) : Nat :=
  s.lockedBSSID

/-- Modelled from the spec: `WirelessPSPPluginDevice::ReadCallback`
(declared in src/Includes/WirelessPSPPluginDevice.h line 50; body not under
src/).  Spec section 4.5: no SSID filter and no beacon handling; the locked
BSSID is taken from the first observed Data frame whose source MAC equals
the source MAC filter; subsequent frames not matching that BSSID are
dropped; matching data frames are converted and forwarded. -/
def WirelessPSPPluginDevice.ReadCallback (s : PSPDeviceState) (aData : List Nat) : PSPReadResult :=
  if s.devState ≠ DevState.Capturing then ⟨s, none⟩
  else
    match classify aData with
    | FrameClass.Data =>
      if s.bssidLocked then
        if dot11BSSID aData = s.lockedBSSID then
          ⟨s, some (PacketConverter.ConvertPacketTo8023 aData)⟩
        else ⟨s, none⟩
      else
        if dot11SourceMAC aData = s.mSourceMACToFilter then
          ⟨{ s with bssidLocked := true, lockedBSSID := dot11BSSID aData },
            some (PacketConverter.ConvertPacketTo8023 aData)⟩
        else ⟨s, none⟩
    | FrameClass.DataQoS =>
      if s.bssidLocked then
        if dot11BSSID aData = s.lockedBSSID then
          ⟨s, some (PacketConverter.ConvertPacketTo8023 aData)⟩
        else ⟨s, none⟩
      else
        if dot11SourceMAC aData = s.mSourceMACToFilter then
          ⟨{ s with bssidLocked := true, lockedBSSID := dot11BSSID aData },
            some (PacketConverter.ConvertPacketTo8023 aData)⟩
        else ⟨s, none⟩
    | _ => ⟨s, none⟩

/-- Capture constants of the PSP-plugin device
(src/Includes/WirelessPSPPluginDevice.h lines 18-22). -/
def WirelessPSPPluginDevice_Constants.cSnapshotLength : Nat := 65535

/-- Capture timeout in milliseconds of the PSP-plugin device
(src/Includes/WirelessPSPPluginDevice.h lines 18-22). -/
def WirelessPSPPluginDevice_Constants.cTimeout : Nat := 1

/-- Snapshot length of the authoritative Monitor Device
(namespace WirelessMonitorDevice_Constants in src/Includes/MonitorDevice.h
lines 18-22). -/
def WirelessMonitorDevice_Constants.cSnapshotLength : Nat := 65535

/-- Capture timeout in milliseconds of the authoritative Monitor Device
(src/Includes/MonitorDevice.h lines 18-22). -/
def WirelessMonitorDevice_Constants.cTimeout : Nat := 10

/-- Snapshot length of the duplicate constants namespace in the older
header src/Includes/WirelessMonitorDevice.h lines 17-21 (dead code per spec
section 9). -/
def WirelessMonitorDeviceOld_Constants.cSnapshotLength : Nat := 2048

/-- Capture timeout of the older duplicate header
src/Includes/WirelessMonitorDevice.h lines 17-21. -/
def WirelessMonitorDeviceOld_Constants.cTimeout : Nat := 10

/-- UI commands (WindowModel_Constants::Command, used by src/main.cpp). -/
inductive Command
  | StartEngine
  | WaitForTime
  | StopEngine
  | StartSearchNetworks
  | StopSearchNetworks
  | SaveSettings
  | NoCommand
deriving DecidableEq

/-- Engine status values (WindowModel_Constants::EngineStatus). -/
inductive EngineStatus
  | Running
  | Error
  | Idle
deriving DecidableEq

/-- The configuration and command fields of the WindowModel that the engine
loop in src/main.cpp reads and writes. -/
structure WindowModel where
  mCommand : Command
  mEngineStatus : EngineStatus
  mTimeToWait : Nat
  mCommandAfterWait : Command
  mUsePSPPlugin : Bool
  mAutoDiscoverPSPVitaNetworks : Bool
  mAutoDiscoverXLinkKaiInstance : Bool
  mOnlyAcceptFromMac : String
  mAcknowledgeDataFrames : Bool
  mWifiAdapter : String

/-- The device instance held by the engine loop (`lDevice` in
src/main.cpp): a MonitorDevice carries the source-MAC filter and the
acknowledge flag it was constructed with (set only right after
construction, src/main.cpp lines 124-130); the PSP-plugin device is
constructed without either setter being called. -/
inductive DeviceKind
  | monitor (aSourceMACToFilter : Nat) (aAcknowledgePackets : Bool)
  | pspPlugin
deriving DecidableEq

/-- The engine loop state: the window model, the held device (`lDevice`)
and the SSID filter list (`lSSIDFilters`), all from src/main.cpp. -/
structure EngineState where
  model : WindowModel
  device : Option DeviceKind
  ssidFilters : List String

/-- Results of the external calls the engine makes during one iteration:
`XLinkKaiConnection::Open`, `IPCapDevice::Open`, both
`StartReceiverThread` calls and the wait-expiry test, all collaborators
outside the embedded sources. -/
structure EngineOracle where
  connectorOpenOk : Bool
  deviceOpenOk : Bool
  deviceRecvOk : Bool
  connectorRecvOk : Bool
  waitElapsed : Bool

/-- Observable calls of one engine iteration: the adapter name and SSID
filter list passed to `lDevice->Open`, if it was called. -/
structure EngineTrace where
  deviceOpenCalled : Option (String × List String)
deriving DecidableEq

/-- SSID filter entry for PSP networks (src/main.cpp line 22). -/
def cPSPSSIDFilterName : String := "PSP_"

/-- SSID filter entry for Vita networks (src/main.cpp line 23). -/
def cVitaSSIDFilterName : String := "SCE_"

/-- One iteration of the engine command dispatcher, embedded from the
switch statement in src/main.cpp lines 112-208.  StartEngine (lines
113-176): reuse the held device when it already has the configured type,
otherwise construct it (only a freshly constructed MonitorDevice receives
SetSourceMACToFilter and SetAcknowledgePackets); append the PSP/Vita
prefixes to the SSID filter when auto-discovery is on; open the connector
(10 s retry wait via NoCommand on failure); then open the device and start
both receiver threads (5 s wait then StopEngine on failure).  WaitForTime
(lines 177-188) forwards to the stored follow-up command once the delay
expires.  StopEngine (lines 189-196) closes everything, clears the SSID
filters and goes Idle; the device pointer is retained. -/
def engineStep (s : EngineState) (o : EngineOracle) : EngineState × EngineTrace :=
  match s.model.mCommand with
  | Command.StartEngine =>
    let lDevice : DeviceKind :=
      if s.model.mUsePSPPlugin then
        match s.device with
        | some DeviceKind.pspPlugin => DeviceKind.pspPlugin
        | _ => DeviceKind.pspPlugin
      else
        match s.device with
        | some (DeviceKind.monitor m a) => DeviceKind.monitor m a
        | _ => DeviceKind.monitor (PacketConverter.MacToInt s.model.mOnlyAcceptFromMac)
                 s.model.mAcknowledgeDataFrames
    let lFilters :=
      if s.model.mAutoDiscoverPSPVitaNetworks then
        s.ssidFilters ++ [cPSPSSIDFilterName, cVitaSSIDFilterName]
      else s.ssidFilters
    if o.connectorOpenOk then
      if o.deviceOpenOk then
        if o.deviceRecvOk && o.connectorRecvOk then
          (⟨{ s.model with
                mEngineStatus := EngineStatus.Running
                mCommand := Command.NoCommand }, some lDevice, lFilters⟩,
           ⟨some (s.model.mWifiAdapter, lFilters)⟩)
        else
          (⟨{ s.model with
                mEngineStatus := EngineStatus.Error
                mCommand := Command.WaitForTime
                mTimeToWait := 5
                mCommandAfterWait := Command.StopEngine }, some lDevice, lFilters⟩,
           ⟨some (s.model.mWifiAdapter, lFilters)⟩)
      else
        (⟨{ s.model with
              mEngineStatus := EngineStatus.Error
              mCommand := Command.WaitForTime
              mTimeToWait := 5
              mCommandAfterWait := Command.StopEngine }, some lDevice, lFilters⟩,
         ⟨some (s.model.mWifiAdapter, lFilters)⟩)
    else
      (⟨{ s.model with
            mCommand := Command.WaitForTime
            mTimeToWait := 10
            mCommandAfterWait := Command.NoCommand }, some lDevice, lFilters⟩,
       ⟨none⟩)
  | Command.WaitForTime =>
    if o.waitElapsed then
      (⟨{ s.model with mCommand := s.model.mCommandAfterWait }, s.device, s.ssidFilters⟩, ⟨none⟩)
    else (s, ⟨none⟩)
  | Command.StopEngine =>
    (⟨{ s.model with
          mEngineStatus := EngineStatus.Idle
          mCommand := Command.NoCommand }, s.device, []⟩, ⟨none⟩)
  | _ => (s, ⟨none⟩)

/-- A small concrete 802.3 frame: dst 01:02:03:04:05:06,
src 0b:0c:0d:0e:0f:10, EtherType 0x0800, payload "hello". -/
def cTestFrame8023 : List Nat :=
  [1, 2, 3, 4, 5, 6, 11, 12, 13, 14, 15, 16, 8, 0, 104, 101, 108, 108, 111]

/-- A concrete monitor-format data frame: the conversion of
`cTestFrame8023` to 802.11 for a fixed BSSID. -/
def cTestFrame80211 : List Nat :=
  PacketConverter.ConvertPacketTo80211 cTestFrame8023 0xAABBCCDDEEFF 2412 0x82

/-- A concrete beacon frame: RadioTap, management header with BSSID
02:11:22:33:44:55 in addr3, 12 fixed parameter bytes, then tagged
parameters SSID "PSP_X" (tag 0), supported rates (tag 1) and DS parameter
set channel 6 (tag 3). -/
def cTestBeacon : List Nat :=
  PacketConverter.InsertRadioTapHeader 2412 2 ++
    [0x80, 0x00, 0x00, 0x00] ++
    [255, 255, 255, 255, 255, 255] ++
    [0x55, 0x44, 0x33, 0x22, 0x11, 0x02] ++
    [0x55, 0x44, 0x33, 0x22, 0x11, 0x02] ++
    [0x00, 0x00] ++
    [0, 0, 0, 0, 0, 0, 0, 0, 100, 0, 34, 0] ++
    [0, 5, 80, 83, 80, 95, 88] ++
    [1, 2, 0x82, 0x84] ++
    [3, 1, 6]

/-- A capturing, unlocked monitor device with the PSP prefix filter. -/
def cMonitorUnlocked : MonitorDeviceState :=
  { devState := DevState.Capturing
    bssidLocked := false
    mWifiInformation := { BSSID := 0, SSID := [], MaxRate := 2, Frequency := 2412 }
    mSSIDFilter := ["PSP_"]
    mSourceMACToFilter := 0
    mAcknowledgePackets := false }

/-- A capturing, unlocked PSP-plugin device filtering on the source MAC
10:0f:0e:0d:0c:0b (the source of `cTestFrame80211` in wire order). -/
def cPSPUnlocked : PSPDeviceState :=
  { devState := DevState.Capturing
    bssidLocked := false
    lockedBSSID := 0
    mSourceMACToFilter := 0x100F0E0D0C0B }

/-- A capturing PSP-plugin device locked onto a BSSID different from the
one of `cTestFrame80211`. -/
def cPSPLockedOther : PSPDeviceState :=
  { devState := DevState.Capturing
    bssidLocked := true
    lockedBSSID := 0x020202020202
    mSourceMACToFilter := 0x100F0E0D0C0B }

/-- A window model about to process StartEngine with PSP/Vita
auto-discovery enabled and the monitor device selected. -/
def cStartModel : WindowModel :=
  { mCommand := Command.StartEngine
    mEngineStatus := EngineStatus.Idle
    mTimeToWait := 0
    mCommandAfterWait := Command.NoCommand
    mUsePSPPlugin := false
    mAutoDiscoverPSPVitaNetworks := true
    mAutoDiscoverXLinkKaiInstance := false
    mOnlyAcceptFromMac := "01:02:03:04:05:06"
    mAcknowledgeDataFrames := true
    mWifiAdapter := "wlan0" }

/-- Fresh engine state: no device held, empty SSID filter list. -/
def cEngineFresh : EngineState :=
  { model := cStartModel
    device := none
    ssidFilters := [] }

/-- Engine state already holding a MonitorDevice whose constructed-in
source MAC filter and acknowledge flag differ from the current
configuration (`cStartModel` would produce 0x010203040506 reversed and
true). -/
def cEngineWithMonitor : EngineState :=
  { model := cStartModel
    device := some (DeviceKind.monitor 0x999999 false)
    ssidFilters := [] }

/-- Oracle: the connector cannot be reached. -/
def cOracleConnFail : EngineOracle :=
  { connectorOpenOk := false
    deviceOpenOk := false
    deviceRecvOk := false
    connectorRecvOk := false
    waitElapsed := false }

/-- Oracle: the connector opens but the device open fails. -/
def cOracleDevFail : EngineOracle :=
  { connectorOpenOk := true
    deviceOpenOk := false
    deviceRecvOk := false
    connectorRecvOk := false
    waitElapsed := false }

/-- Oracle: everything succeeds. -/
def cOracleAllOk : EngineOracle :=
  { connectorOpenOk := true
    deviceOpenOk := true
    deviceRecvOk := true
    connectorRecvOk := true
    waitElapsed := false }

/-- Claim C1: for every byte string of length at least 14, converting it to
802.11 monitor format and back to 802.3 promiscuous format returns the
original frame exactly, for every BSSID, frequency and max rate (spec
section 8, first universal invariant). -/
theorem conv_roundtrip (aFrame : List Nat) (aBSSID aFrequency aMaxRate : Nat)
    (h : 14 ≤ aFrame.length) :
    PacketConverter.ConvertPacketTo8023
      (PacketConverter.ConvertPacketTo80211 aFrame aBSSID aFrequency aMaxRate) = aFrame := by
  rcases aFrame with _ | ⟨x0, F⟩; · simp at h
  rcases F with _ | ⟨x1, F⟩; · simp at h
  rcases F with _ | ⟨x2, F⟩; · simp at h
  rcases F with _ | ⟨x3, F⟩; · simp at h
  rcases F with _ | ⟨x4, F⟩; · simp at h
  rcases F with _ | ⟨x5, F⟩; · simp at h
  rcases F with _ | ⟨x6, F⟩; · simp at h
  rcases F with _ | ⟨x7, F⟩; · simp at h
  rcases F with _ | ⟨x8, F⟩; · simp at h
  rcases F with _ | ⟨x9, F⟩; · simp at h
  rcases F with _ | ⟨x10, F⟩; · simp at h
  rcases F with _ | ⟨x11, F⟩; · simp at h
  rcases F with _ | ⟨x12, F⟩; · simp at h
  rcases F with _ | ⟨x13, F⟩; · simp at h
  rw [PacketConverter.ConvertPacketTo80211,
      if_neg (by simp only [List.length_cons]; omega)]
  simp [PacketConverter.ConvertPacketTo8023,
        PacketConverter.InsertRadioTapHeader, classify, radioTapLength, getByte,
        dataHeaderEnd, toDSBit, fromDSBit, dstAddrOf, srcAddrOf, addrField, cLLCSNAP,
        macToBytes, frameControlType, frameControlSubtype]

/-- Witness for C1: the round trip evaluated on the concrete frame
`cTestFrame8023`. -/
theorem conv_roundtrip_holds :
    14 ≤ cTestFrame8023.length ∧
    PacketConverter.ConvertPacketTo8023
      (PacketConverter.ConvertPacketTo80211 cTestFrame8023 0xAABBCCDDEEFF 2412 0x82)
      = cTestFrame8023 :=
  ⟨by decide, conv_roundtrip cTestFrame8023 0xAABBCCDDEEFF 2412 0x82 (by decide)⟩

/-- Claim C2: while the monitor device is capturing with the BSSID not yet
locked, the read callback never hands bytes to the Connector, whatever the
input frame is (spec sections 4.4 and 8). -/
theorem monitor_unlocked_no_send (s : MonitorDeviceState) (aData : List Nat)
    (hcap : s.devState = DevState.Capturing)
    (hlock : s.bssidLocked = false) :
    (MonitorDevice.ReadCallback s aData).sentToConnector = none := by
  unfold MonitorDevice.ReadCallback
  rw [if_neg (by simp [hcap])]
  rw [hlock]
  simp only [Bool.false_eq_true, if_false]
  cases classify aData <;> simp
  split <;> simp

/-- Witness for C2: the unlocked monitor device stays silent on a concrete
beacon that does match its SSID filter. -/
theorem monitor_unlocked_holds :
    (MonitorDevice.ReadCallback cMonitorUnlocked cTestBeacon).sentToConnector = none :=
  monitor_unlocked_no_send cMonitorUnlocked cTestBeacon rfl rfl

/-- Claim C3: ConvertPacketTo8023 yields the empty string for every frame
that is not Data or DataQoS, for the (1,1) to-DS/from-DS combination and
for a missing LLC/SNAP header; in the remaining cases it emits the 14-byte
Ethernet header (destination, source, EtherType) followed by the payload
verbatim (spec section 4.2.2). -/
theorem conv8023_cases (aData : List Nat) :
    ((classify aData ≠ FrameClass.Data ∧ classify aData ≠ FrameClass.DataQoS) →
      PacketConverter.ConvertPacketTo8023 aData = []) ∧
    (toDSBit aData = 1 ∧ fromDSBit aData = 1 →
      PacketConverter.ConvertPacketTo8023 aData = []) ∧
    ((aData.drop (dataHeaderEnd aData)).take 6 ≠ cLLCSNAP →
      PacketConverter.ConvertPacketTo8023 aData = []) ∧
    ((classify aData = FrameClass.Data ∨ classify aData = FrameClass.DataQoS) →
      ¬(toDSBit aData = 1 ∧ fromDSBit aData = 1) →
      (aData.drop (dataHeaderEnd aData)).take 6 = cLLCSNAP →
      PacketConverter.ConvertPacketTo8023 aData =
        dstAddrOf aData ++ srcAddrOf aData ++
          (aData.drop (dataHeaderEnd aData + 6)).take 2 ++
          aData.drop (dataHeaderEnd aData + 8) ∧
      (dataHeaderEnd aData + 8 ≤ aData.length →
        (dstAddrOf aData ++ srcAddrOf aData ++
          (aData.drop (dataHeaderEnd aData + 6)).take 2).length = 14)) := by
  refine ⟨?_, ?_, ?_, ?_⟩
  · intro h
    unfold PacketConverter.ConvertPacketTo8023
    rw [if_pos h]
  · intro h
    unfold PacketConverter.ConvertPacketTo8023
    by_cases hA : classify aData ≠ FrameClass.Data ∧ classify aData ≠ FrameClass.DataQoS
    · rw [if_pos hA]
    · rw [if_neg hA, if_pos h]
  · intro h
    unfold PacketConverter.ConvertPacketTo8023
    by_cases hA : classify aData ≠ FrameClass.Data ∧ classify aData ≠ FrameClass.DataQoS
    · rw [if_pos hA]
    · rw [if_neg hA]
      by_cases hB : toDSBit aData = 1 ∧ fromDSBit aData = 1
      · rw [if_pos hB]
      · rw [if_neg hB, if_pos h]
  · intro hclass hds hllc
    have hnc : ¬(classify aData ≠ FrameClass.Data ∧ classify aData ≠ FrameClass.DataQoS) := by
      rcases hclass with h | h <;> simp [h]
    constructor
    · unfold PacketConverter.ConvertPacketTo8023
      rw [if_neg hnc, if_neg hds, if_neg (by simp [hllc])]
    · intro hlen
      have hrt : radioTapLength aData + 22 ≤ aData.length := by
        have h2 := hlen
        unfold dataHeaderEnd at h2
        omega
      have h0 : (addrField aData 0).length = 6 := by
        unfold addrField
        simp only [List.length_take, List.length_drop]
        omega
      have h1 : (addrField aData 1).length = 6 := by
        unfold addrField
        simp only [List.length_take, List.length_drop]
        omega
      have h2 : (addrField aData 2).length = 6 := by
        unfold addrField
        simp only [List.length_take, List.length_drop]
        omega
      have hT : ((aData.drop (dataHeaderEnd aData + 6)).take 2).length = 2 := by
        simp only [List.length_take, List.length_drop]
        omega
      unfold dstAddrOf srcAddrOf
      by_cases hx : toDSBit aData = 1 ∧ fromDSBit aData = 0 <;>
        by_cases hy : toDSBit aData = 0 ∧ fromDSBit aData = 1 <;>
        simp [hx, hy, h0, h1, h2, hT]

/-- Witness for C3: the emit case evaluated on the concrete data frame
`cTestFrame80211`, including the 14-byte header length. -/
theorem conv8023_cases_holds :
    PacketConverter.ConvertPacketTo8023 cTestFrame80211 =
      dstAddrOf cTestFrame80211 ++ srcAddrOf cTestFrame80211 ++
        (cTestFrame80211.drop (dataHeaderEnd cTestFrame80211 + 6)).take 2 ++
        cTestFrame80211.drop (dataHeaderEnd cTestFrame80211 + 8) ∧
    (dstAddrOf cTestFrame80211 ++ srcAddrOf cTestFrame80211 ++
        (cTestFrame80211.drop (dataHeaderEnd cTestFrame80211 + 6)).take 2).length = 14 :=
  ⟨((conv8023_cases cTestFrame80211).2.2.2 (Or.inl (by decide)) (by decide) (by decide)).1,
   ((conv8023_cases cTestFrame80211).2.2.2 (Or.inl (by decide)) (by decide) (by decide)).2
     (by decide)⟩

/-- Lookup of a key in the concatenation of two association lists: the
first list takes priority. -/
theorem lookup_pair_append (c : Int) (l1 l2 : List (Int × Int)) :
    (l1 ++ l2).lookup c =
      match l1.lookup c with
      | some v => some v
      | none => l2.lookup c := by
  induction l1 with
  | nil => simp [List.lookup]
  | cons p t ih =>
    rcases p with ⟨k, v⟩
    by_cases hk : c = k
    · simp [List.lookup, hk]
    · have hbeq : (c == k) = false := by simp [hk]
      simp only [List.cons_append, List.lookup, hbeq, List.append_eq, ih]

/-- Lookup in one stretch of the channel table: defined exactly on the
covered channel range. -/
theorem lookup_channelTableFrom (aCount : Nat) (aStart aBase c : Int) :
    (channelTableFrom aStart aCount aBase).lookup c =
      if aStart ≤ c ∧ c < aStart + (aCount : Int) then some (aBase + 5 * c) else none := by
  induction aCount generalizing aStart with
  | zero =>
    rw [if_neg (by omega)]
    simp [channelTableFrom, List.lookup]
  | succ k ih =>
    by_cases hk : c = aStart
    · rw [if_pos (by constructor <;> omega)]
      simp [channelTableFrom, List.lookup, hk]
    · have hbeq : (c == aStart) = false := by simp [hk]
      have step := ih (aStart + 1)
      simp only [channelTableFrom, List.lookup, hbeq, step]
      by_cases hrange : aStart + 1 ≤ c ∧ c < aStart + 1 + (k : Int)
      · rw [if_pos hrange, if_pos (by push_cast; omega)]
      · rw [if_neg hrange, if_neg (by push_cast; omega)]

/-- Claim C4: the channel-to-frequency conversion returns 2407+5n for
channels 1-13, 2484 for channel 14, 5000+5n for channels 36-165 and the
invalid sentinel -1 for every other integer (spec section 4.2.1). -/
theorem channel_frequency_spec (n : Int) :
    (1 ≤ n ∧ n ≤ 13 → PacketConverter.ConvertChannelToFrequency n = 2407 + 5 * n) ∧
    (n = 14 → PacketConverter.ConvertChannelToFrequency n = 2484) ∧
    (36 ≤ n ∧ n ≤ 165 → PacketConverter.ConvertChannelToFrequency n = 5000 + 5 * n) ∧
    (¬(1 ≤ n ∧ n ≤ 13) → n ≠ 14 → ¬(36 ≤ n ∧ n ≤ 165) →
      PacketConverter.ConvertChannelToFrequency n = -1) := by
  have hmain : channelFrequencyTable.lookup n =
      if 1 ≤ n ∧ n < 14 then some (2407 + 5 * n)
      else if n = 14 then some 2484
      else if 36 ≤ n ∧ n < 166 then some (5000 + 5 * n)
      else none := by
    unfold channelFrequencyTable
    rw [lookup_pair_append, lookup_pair_append, lookup_channelTableFrom,
        lookup_channelTableFrom]
    by_cases h1 : 1 ≤ n ∧ n < 14
    · rw [if_pos (by push_cast; omega), if_pos h1]
    · rw [if_neg (by push_cast; omega), if_neg h1]
      by_cases h2 : n = 14
      · have hbeq : (n == (14 : Int)) = true := by simp [h2]
        simp [List.lookup, hbeq, h2]
      · have hbeq : (n == (14 : Int)) = false := by simp [h2]
        simp only [List.lookup, hbeq, if_neg h2]
        by_cases h3 : 36 ≤ n ∧ n < 166
        · rw [if_pos (by push_cast; omega), if_pos h3]
        · rw [if_neg (by push_cast; omega), if_neg h3]
  refine ⟨?_, ?_, ?_, ?_⟩
  · intro h
    unfold PacketConverter.ConvertChannelToFrequency
    rw [hmain, if_pos (by omega)]
  · intro h
    unfold PacketConverter.ConvertChannelToFrequency
    rw [hmain, if_neg (by omega), if_pos h]
  · intro h
    unfold PacketConverter.ConvertChannelToFrequency
    rw [hmain, if_neg (by omega), if_neg (by omega), if_pos (by omega)]
  · intro ha hb hc
    unfold PacketConverter.ConvertChannelToFrequency
    rw [hmain, if_neg (by omega), if_neg hb, if_neg (by omega)]

/-- Witness for C4: the conversion evaluated on one channel of each band
and one invalid channel. -/
theorem channel_frequency_holds :
    PacketConverter.ConvertChannelToFrequency 6 = 2437 ∧
    PacketConverter.ConvertChannelToFrequency 14 = 2484 ∧
    PacketConverter.ConvertChannelToFrequency 40 = 5200 ∧
    PacketConverter.ConvertChannelToFrequency 20 = -1 :=
  ⟨((channel_frequency_spec 6).1 ⟨by decide, by decide⟩).trans (by decide),
   (channel_frequency_spec 14).2.1 rfl,
   ((channel_frequency_spec 40).2.2.1 ⟨by decide, by decide⟩).trans (by decide),
   (channel_frequency_spec 20).2.2.2 (by decide) (by decide) (by decide)⟩

/-- Claim C5: in the StartEngine handling of the engine loop, a failed
connector open schedules a 10-second wait followed by NoCommand, while a
successful connector open followed by a failed device open or a failed
receiver-thread start schedules a 5-second wait followed by StopEngine
(src/main.cpp lines 141-175). -/
theorem engine_start_failure_schedule (s : EngineState) (o : EngineOracle)
    (hc : s.model.mCommand = Command.StartEngine) :
    (o.connectorOpenOk = false →
      (engineStep s o).1.model.mCommand = Command.WaitForTime ∧
      (engineStep s o).1.model.mTimeToWait = 10 ∧
      (engineStep s o).1.model.mCommandAfterWait = Command.NoCommand) ∧
    (o.connectorOpenOk = true →
      (o.deviceOpenOk = false ∨ (o.deviceRecvOk && o.connectorRecvOk) = false) →
      (engineStep s o).1.model.mCommand = Command.WaitForTime ∧
      (engineStep s o).1.model.mTimeToWait = 5 ∧
      (engineStep s o).1.model.mCommandAfterWait = Command.StopEngine) := by
  constructor
  · intro hconn
    simp [engineStep, hc, hconn]
  · intro hconn hfail
    rcases hfail with hdev | hrecv
    · simp [engineStep, hc, hconn, hdev]
    · cases hdo : o.deviceOpenOk <;> simp [engineStep, hc, hconn, hdo, hrecv]

/-- Witness for C5: both failure schedules evaluated on a concrete engine
state. -/
theorem engine_start_failure_holds :
    ((engineStep cEngineFresh cOracleConnFail).1.model.mCommand = Command.WaitForTime ∧
     (engineStep cEngineFresh cOracleConnFail).1.model.mTimeToWait = 10 ∧
     (engineStep cEngineFresh cOracleConnFail).1.model.mCommandAfterWait = Command.NoCommand) ∧
    ((engineStep cEngineFresh cOracleDevFail).1.model.mCommand = Command.WaitForTime ∧
     (engineStep cEngineFresh cOracleDevFail).1.model.mTimeToWait = 5 ∧
     (engineStep cEngineFresh cOracleDevFail).1.model.mCommandAfterWait = Command.StopEngine) :=
  ⟨(engine_start_failure_schedule cEngineFresh cOracleConnFail rfl).1 rfl,
   (engine_start_failure_schedule cEngineFresh cOracleDevFail rfl).2 rfl (Or.inl rfl)⟩

/-- Claim C6: the PSP-plugin device ignores beacons entirely (it has no
SSID filter state at all), locks its BSSID from the first data frame whose
source MAC equals the configured filter, drops every frame not matching the
locked BSSID afterwards, and GetLockedBSSID reports the locked value (spec
section 4.5, src/Includes/WirelessPSPPluginDevice.h). -/
theorem psp_device_lock_spec (s : PSPDeviceState) (aData : List Nat)
    (hcap : s.devState = DevState.Capturing) :
    (classify aData = FrameClass.Beacon →
      WirelessPSPPluginDevice.ReadCallback s aData = ⟨s, none⟩) ∧
    (s.bssidLocked = false → classify aData = FrameClass.Data →
      dot11SourceMAC aData = s.mSourceMACToFilter →
      (WirelessPSPPluginDevice.ReadCallback s aData).st.bssidLocked = true ∧
      (WirelessPSPPluginDevice.ReadCallback s aData).st.lockedBSSID = dot11BSSID aData ∧
      WirelessPSPPluginDevice.GetLockedBSSID (WirelessPSPPluginDevice.ReadCallback s aData).st
        = dot11BSSID aData) ∧
    (s.bssidLocked = true → dot11BSSID aData ≠ s.lockedBSSID →
      WirelessPSPPluginDevice.ReadCallback s aData = ⟨s, none⟩) := by
  refine ⟨?_, ?_, ?_⟩
  · intro hb
    unfold WirelessPSPPluginDevice.ReadCallback
    rw [if_neg (by simp [hcap]), hb]
  · intro hl hd hsrc
    unfold WirelessPSPPluginDevice.ReadCallback WirelessPSPPluginDevice.GetLockedBSSID
    rw [if_neg (by simp [hcap]), hd]
    simp [hl, hsrc]
  · intro hl hbssid
    unfold WirelessPSPPluginDevice.ReadCallback
    rw [if_neg (by simp [hcap])]
    cases hcl : classify aData <;> simp [hl, hbssid]

/-- Witness for C6: concrete beacon ignored, concrete lock acquisition from
a matching data frame, and a concrete drop of a non-matching BSSID. -/
theorem psp_device_lock_holds :
    (WirelessPSPPluginDevice.ReadCallback cPSPUnlocked cTestFrame80211).st.bssidLocked = true ∧
    WirelessPSPPluginDevice.GetLockedBSSID
        (WirelessPSPPluginDevice.ReadCallback cPSPUnlocked cTestFrame80211).st
      = dot11BSSID cTestFrame80211 ∧
    WirelessPSPPluginDevice.ReadCallback cPSPLockedOther cTestFrame80211
      = ⟨cPSPLockedOther, none⟩ ∧
    WirelessPSPPluginDevice.ReadCallback cPSPUnlocked cTestBeacon = ⟨cPSPUnlocked, none⟩ :=
  ⟨((psp_device_lock_spec cPSPUnlocked cTestFrame80211 rfl).2.1 rfl (by decide) (by decide)).1,
   ((psp_device_lock_spec cPSPUnlocked cTestFrame80211 rfl).2.1 rfl (by decide) (by decide)).2.2,
   (psp_device_lock_spec cPSPLockedOther cTestFrame80211 rfl).2.2 rfl (by decide),
   (psp_device_lock_spec cPSPUnlocked cTestBeacon rfl).1 (by decide)⟩

/-- Claim C7: the PSP-plugin capture device uses snapshot length 65535 with
a 1 ms timeout, and the authoritative Monitor Device header uses snapshot
length 65535 (differing from the 2048 of the older duplicate header) with a
10 ms timeout (src/Includes/WirelessPSPPluginDevice.h lines 18-22,
src/Includes/MonitorDevice.h lines 18-22,
src/Includes/WirelessMonitorDevice.h lines 17-21). -/
theorem capture_constants_spec :
    WirelessPSPPluginDevice_Constants.cSnapshotLength = 65535 ∧
    WirelessPSPPluginDevice_Constants.cTimeout = 1 ∧
    WirelessMonitorDevice_Constants.cSnapshotLength = 65535 ∧
    WirelessMonitorDevice_Constants.cTimeout = 10 ∧
    WirelessMonitorDevice_Constants.cSnapshotLength ≠
      WirelessMonitorDeviceOld_Constants.cSnapshotLength ∧
    WirelessMonitorDeviceOld_Constants.cSnapshotLength = 2048 := by
  decide

/-- Claim C8: with auto_discover_psp_vita_networks set, the StartEngine
handling preloads the SSID filter list with exactly "PSP_" and "SCE_"
before the device is opened, starting from the cleared filter list the
program begins with and that StopEngine restores (src/main.cpp lines
135-139 and 21-23). -/
theorem engine_autodiscover_ssidfilter (s : EngineState) (o : EngineOracle)
    (hc : s.model.mCommand = Command.StartEngine)
    (ha : s.model.mAutoDiscoverPSPVitaNetworks = true)
    (hf : s.ssidFilters = []) :
    (engineStep s o).1.ssidFilters = ["PSP_", "SCE_"] ∧
    (o.connectorOpenOk = true →
      (engineStep s o).2.deviceOpenCalled = some (s.model.mWifiAdapter, ["PSP_", "SCE_"])) := by
  constructor
  · cases hco : o.connectorOpenOk <;> cases hdo : o.deviceOpenOk <;>
      cases hrc : o.deviceRecvOk && o.connectorRecvOk <;>
      simp [engineStep, hc, ha, hf, hco, hdo, hrc, cPSPSSIDFilterName, cVitaSSIDFilterName]
  · intro hco
    cases hdo : o.deviceOpenOk <;> cases hrc : o.deviceRecvOk && o.connectorRecvOk <;>
      simp [engineStep, hc, ha, hf, hco, hdo, hrc, cPSPSSIDFilterName, cVitaSSIDFilterName]

/-- Witness for C8: the preloaded filter list observed on a concrete fresh
engine state whose open succeeds. -/
theorem engine_autodiscover_holds :
    (engineStep cEngineFresh cOracleAllOk).1.ssidFilters = ["PSP_", "SCE_"] ∧
    (engineStep cEngineFresh cOracleAllOk).2.deviceOpenCalled
      = some (cEngineFresh.model.mWifiAdapter, ["PSP_", "SCE_"]) :=
  ⟨(engine_autodiscover_ssidfilter cEngineFresh cOracleAllOk rfl rfl rfl).1,
   (engine_autodiscover_ssidfilter cEngineFresh cOracleAllOk rfl rfl rfl).2 rfl⟩

/-- Hex character values are always below 16, including the unvalidated
fallback branch. -/
theorem hexCharValue_lt (c : Char) : hexCharValue c < 16 := by
  unfold hexCharValue
  split <;> try omega
  split <;> try omega
  split <;> omega

/-- Hex digits are never the colon separator (character code 58). -/
theorem hexDigit_ne_colon {c : Char} (h : isHexDigitChar c = true) : ¬(c.toNat = 58) := by
  unfold isHexDigitChar at h
  simp at h
  omega

/-- Colon step of the fold: separators are skipped. -/
theorem macToIntFold_colon (cs : List Char) (acc : Nat) :
    macToIntFold (':' :: cs) acc = macToIntFold cs acc := rfl

/-- Hex-digit step of the fold: the accumulator shifts by one nibble. -/
theorem macToIntFold_hex {c : Char} (h : isHexDigitChar c = true) (cs : List Char) (acc : Nat) :
    macToIntFold (c :: cs) acc = macToIntFold cs (acc * 16 + hexCharValue c) := by
  conv_lhs => rw [macToIntFold]
  rw [if_neg (hexDigit_ne_colon h)]

/-- Claim C9: MacToInt parses "aa:bb:cc:dd:ee:ff" to 0x0000AABBCCDDEEFF;
in general, every string of six colon-separated two-hex-digit groups parses
to the 48-bit value right-justified in the word, so the upper 16 bits are
zero (the model is total: invalid characters are folded in unvalidated,
never rejected) (spec sections 4.2.4 and 8). -/
theorem mac_to_int_spec :
    PacketConverter.MacToInt "aa:bb:cc:dd:ee:ff" = 0xAABBCCDDEEFF ∧
    (∀ c1 c2 c3 c4 c5 c6 c7 c8 c9 c10 c11 c12 : Char,
      isHexDigitChar c1 = true → isHexDigitChar c2 = true →
      isHexDigitChar c3 = true → isHexDigitChar c4 = true →
      isHexDigitChar c5 = true → isHexDigitChar c6 = true →
      isHexDigitChar c7 = true → isHexDigitChar c8 = true →
      isHexDigitChar c9 = true → isHexDigitChar c10 = true →
      isHexDigitChar c11 = true → isHexDigitChar c12 = true →
      PacketConverter.MacToInt (String.mk
          [c1, c2, ':', c3, c4, ':', c5, c6, ':', c7, c8, ':', c9, c10, ':', c11, c12]) =
        (hexCharValue c1 * 16 + hexCharValue c2) * 2 ^ 40 +
        (hexCharValue c3 * 16 + hexCharValue c4) * 2 ^ 32 +
        (hexCharValue c5 * 16 + hexCharValue c6) * 2 ^ 24 +
        (hexCharValue c7 * 16 + hexCharValue c8) * 2 ^ 16 +
        (hexCharValue c9 * 16 + hexCharValue c10) * 2 ^ 8 +
        (hexCharValue c11 * 16 + hexCharValue c12) ∧
      PacketConverter.MacToInt (String.mk
          [c1, c2, ':', c3, c4, ':', c5, c6, ':', c7, c8, ':', c9, c10, ':', c11, c12])
        < 2 ^ 48) := by
  constructor
  · decide
  · intro c1 c2 c3 c4 c5 c6 c7 c8 c9 c10 c11 c12 h1 h2 h3 h4 h5 h6 h7 h8 h9 h10 h11 h12
    have hval : PacketConverter.MacToInt (String.mk
        [c1, c2, ':', c3, c4, ':', c5, c6, ':', c7, c8, ':', c9, c10, ':', c11, c12]) =
        macToIntFold
          [c1, c2, ':', c3, c4, ':', c5, c6, ':', c7, c8, ':', c9, c10, ':', c11, c12] 0 := rfl
    rw [hval, macToIntFold_hex h1, macToIntFold_hex h2, macToIntFold_colon,
        macToIntFold_hex h3, macToIntFold_hex h4, macToIntFold_colon,
        macToIntFold_hex h5, macToIntFold_hex h6, macToIntFold_colon,
        macToIntFold_hex h7, macToIntFold_hex h8, macToIntFold_colon,
        macToIntFold_hex h9, macToIntFold_hex h10, macToIntFold_colon,
        macToIntFold_hex h11, macToIntFold_hex h12]
    have hnil : ∀ acc : Nat, macToIntFold [] acc = acc := fun acc => rfl
    rw [hnil]
    have b1 := hexCharValue_lt c1
    have b2 := hexCharValue_lt c2
    have b3 := hexCharValue_lt c3
    have b4 := hexCharValue_lt c4
    have b5 := hexCharValue_lt c5
    have b6 := hexCharValue_lt c6
    have b7 := hexCharValue_lt c7
    have b8 := hexCharValue_lt c8
    have b9 := hexCharValue_lt c9
    have b10 := hexCharValue_lt c10
    have b11 := hexCharValue_lt c11
    have b12 := hexCharValue_lt c12
    constructor
    · ring
    · omega

/-- Witness for C9: the general bound applied to the concrete groups
"01:23:45:67:89:ab". -/
theorem mac_to_int_holds :
    PacketConverter.MacToInt (String.mk
        ['0', '1', ':', '2', '3', ':', '4', '5', ':', '6', '7', ':', '8', '9', ':', 'a', 'b'])
      < 2 ^ 48 :=
  (mac_to_int_spec.2 '0' '1' '2' '3' '4' '5' '6' '7' '8' '9' 'a' 'b'
    (by decide) (by decide) (by decide) (by decide) (by decide) (by decide)
    (by decide) (by decide) (by decide) (by decide) (by decide) (by decide)).2

/-- Claim C10: when StartEngine runs while the engine already holds a
MonitorDevice, that instance is reused with the source-MAC filter and
acknowledge flag it was constructed with; the current configuration values
are not re-applied (src/main.cpp lines 113-133: the setters run only in the
fresh-construction branch). -/
theorem engine_monitor_reuse_stale_config (s : EngineState) (o : EngineOracle)
    (m : Nat) (a : Bool)
    (hc : s.model.mCommand = Command.StartEngine)
    (hp : s.model.mUsePSPPlugin = false)
    (hd : s.device = some (DeviceKind.monitor m a)) :
    (engineStep s o).1.device = some (DeviceKind.monitor m a) := by
  cases hco : o.connectorOpenOk <;> cases hdo : o.deviceOpenOk <;>
    cases hrc : o.deviceRecvOk && o.connectorRecvOk <;>
    simp [engineStep, hc, hp, hd, hco, hdo, hrc]

/-- Witness for C10: the held monitor device keeps its stale constructed-in
settings across a concrete StartEngine run, although the current
configuration would produce a different source-MAC filter. -/
theorem engine_monitor_reuse_holds :
    (engineStep cEngineWithMonitor cOracleAllOk).1.device
      = some (DeviceKind.monitor 0x999999 false) ∧
    PacketConverter.MacToInt cEngineWithMonitor.model.mOnlyAcceptFromMac ≠ 0x999999 :=
  ⟨engine_monitor_reuse_stale_config cEngineWithMonitor cOracleAllOk 0x999999 false rfl rfl rfl,
   by decide⟩
